import Mathlib

/-
Verification of the TOTP core of the hotpot repository (`src/totp.rs`,
with the otpauth-URI extractors of `src/dashboard.rs`).

The embedding translates the Rust sources into executable Lean definitions:
bytes are `Nat` values 0–255 in `List Nat`, machine words are `Nat` reduced
modulo 2^32 / 2^64 where the Rust types wrap, fallible functions return
`Option`/an error-carrying result type, and Rust panics are modelled as an
explicit `TotpResult.panic` outcome (debug-profile overflow semantics: an
overflowing `10u32.pow` and out-of-range indexing are panics).

The repository's cryptographic dependencies (the RustCrypto `sha1`, `sha2`,
`hmac` crates and the `base32` crate) are not part of the repository source;
they are modelled from the spec: SHA-1/SHA-256/SHA-512 per FIPS 180-4, HMAC
per RFC 2104, and Base32 per RFC 4648 without padding, as §4.1–§4.2 of the
spec prescribe.
-/

set_option maxRecDepth 100000
set_option maxHeartbeats 4000000

/-- Truncate to a 32-bit word. -/
def w32 (n : Nat) : Nat := n % 4294967296

/-- Truncate to a 64-bit word. -/
def w64 (n : Nat) : Nat := n % 18446744073709551616

/-- Left rotation of a 32-bit word. -/
def rotl32 (x r : Nat) : Nat := w32 ((x <<< r) ||| (x >>> (32 - r)))

/-- Right rotation of a 32-bit word. -/
def rotr32 (x r : Nat) : Nat := w32 ((x >>> r) ||| (x <<< (32 - r)))

/-- Right rotation of a 64-bit word. -/
def rotr64 (x r : Nat) : Nat := w64 ((x >>> r) ||| (x <<< (64 - r)))

/-- Big-endian byte encoding of `x`, exactly `k` bytes (truncates mod 2^(8k)).
    Embeds Rust's `u64::to_be_bytes` (`k = 8`) from `src/totp.rs` line 95. -/
def toBeBytes : Nat → Nat → List Nat
  | 0, _ => []
  | k + 1, x => toBeBytes k (x / 256) ++ [x % 256]

/-- Big-endian base-`b` digit expansion of `x`, exactly `k` digits. -/
def toBeDigits (b : Nat) : Nat → Nat → List Nat
  | 0, _ => []
  | k + 1, x => toBeDigits b k (x / b) ++ [x % b]

/-- Big-endian interpretation of a byte list as a number. -/
def beWord (bs : List Nat) : Nat := bs.foldl (fun a b => a * 256 + b) 0

/-- Split a list into chunks of `n` elements (fuelled structural recursion). -/
def chunksF (n : Nat) : Nat → List α → List (List α)
  | 0, _ => []
  | _, [] => []
  | fuel + 1, l => l.take n :: chunksF n fuel (l.drop n)

/-- Split a list into chunks of `n` elements. -/
def chunks (n : Nat) (l : List α) : List (List α) := chunksF n l.length l

/-- Merkle–Damgård padding: append 0x80, zeros, and the 8·len bit count
    as `lenBytes` big-endian bytes, to a multiple of `blockBytes`. -/
def mdPad (blockBytes lenBytes : Nat) (msg : List Nat) : List Nat :=
  let l := msg.length
  let zeros := (blockBytes - (l + 1 + lenBytes) % blockBytes) % blockBytes
  msg ++ [0x80] ++ List.replicate zeros 0 ++ toBeBytes lenBytes (8 * l)

/-- ASCII byte values of a string. -/
def asciiBytes (s : String) : List Nat := s.toList.map Char.toNat

/-- Modelled from the spec: SHA-1 round function f_t (FIPS 180-4 §4.1.1). -/
def sha1F (i b c d : Nat) : Nat :=
  if i < 20 then (b &&& c) ||| ((b ^^^ 0xFFFFFFFF) &&& d)
  else if i < 40 then b ^^^ c ^^^ d
  else if i < 60 then (b &&& c) ||| (b &&& d) ||| (c &&& d)
  else b ^^^ c ^^^ d

/-- Modelled from the spec: SHA-1 round constants K_t (FIPS 180-4 §4.2.1). -/
def sha1K (i : Nat) : Nat :=
  if i < 20 then 0x5A827999
  else if i < 40 then 0x6ED9EBA1
  else if i < 60 then 0x8F1BBCDC
  else 0xCA62C1D6

/-- Extend the reversed SHA-1 message schedule by `fuel` more words:
    W[t] = ROTL1(W[t-3] ^ W[t-8] ^ W[t-14] ^ W[t-16]). -/
def sha1ExtendRev : Nat → List Nat → List Nat
  | 0, acc => acc
  | fuel + 1, acc =>
    let x := rotl32 ((acc.getD 2 0) ^^^ (acc.getD 7 0) ^^^ (acc.getD 13 0) ^^^ (acc.getD 15 0)) 1
    sha1ExtendRev fuel (x :: acc)

/-- SHA-1 compression rounds over the 80-word schedule. -/
def sha1Rounds : Nat → List Nat → Nat × Nat × Nat × Nat × Nat → Nat × Nat × Nat × Nat × Nat
  | _, [], st => st
  | i, wi :: ws, (a, b, c, d, e) =>
    let temp := w32 (rotl32 a 5 + sha1F i b c d + e + sha1K i + wi)
    sha1Rounds (i + 1) ws (temp, a, rotl32 b 30, c, d)

/-- SHA-1 compression of one 64-byte block. -/
def sha1Block (st : Nat × Nat × Nat × Nat × Nat) (block : List Nat) :
    Nat × Nat × Nat × Nat × Nat :=
  let ws := (chunks 4 block).map beWord
  let full := (sha1ExtendRev 64 ws.reverse).reverse
  let (a, b, c, d, e) := sha1Rounds 0 full st
  let (h0, h1, h2, h3, h4) := st
  (w32 (h0 + a), w32 (h1 + b), w32 (h2 + c), w32 (h3 + d), w32 (h4 + e))

/-- SHA-1 initial hash value (FIPS 180-4 §5.3.1). -/
def sha1IV : Nat × Nat × Nat × Nat × Nat :=
  (0x67452301, 0xEFCDAB89, 0x98BADCFE, 0x10325476, 0xC3D2E1F0)

/-- Modelled from the spec: SHA-1 (FIPS 180-4), the hash behind the repository's
    `sha1::Sha1` dependency; bytes in, 20 digest bytes out. -/
def sha1 (msg : List Nat) : List Nat :=
  let (a, b, c, d, e) := (chunks 64 (mdPad 64 8 msg)).foldl sha1Block sha1IV
  toBeBytes 4 a ++ toBeBytes 4 b ++ toBeBytes 4 c ++ toBeBytes 4 d ++ toBeBytes 4 e

/-- SHA-256 round constants (FIPS 180-4 §4.2.2). -/
def ks256 : List Nat :=
  [0x428A2F98, 0x71374491, 0xB5C0FBCF, 0xE9B5DBA5,
   0x3956C25B, 0x59F111F1, 0x923F82A4, 0xAB1C5ED5,
   0xD807AA98, 0x12835B01, 0x243185BE, 0x550C7DC3,
   0x72BE5D74, 0x80DEB1FE, 0x9BDC06A7, 0xC19BF174,
   0xE49B69C1, 0xEFBE4786, 0x0FC19DC6, 0x240CA1CC,
   0x2DE92C6F, 0x4A7484AA, 0x5CB0A9DC, 0x76F988DA,
   0x983E5152, 0xA831C66D, 0xB00327C8, 0xBF597FC7,
   0xC6E00BF3, 0xD5A79147, 0x06CA6351, 0x14292967,
   0x27B70A85, 0x2E1B2138, 0x4D2C6DFC, 0x53380D13,
   0x650A7354, 0x766A0ABB, 0x81C2C92E, 0x92722C85,
   0xA2BFE8A1, 0xA81A664B, 0xC24B8B70, 0xC76C51A3,
   0xD192E819, 0xD6990624, 0xF40E3585, 0x106AA070,
   0x19A4C116, 0x1E376C08, 0x2748774C, 0x34B0BCB5,
   0x391C0CB3, 0x4ED8AA4A, 0x5B9CCA4F, 0x682E6FF3,
   0x748F82EE, 0x78A5636F, 0x84C87814, 0x8CC70208,
   0x90BEFFFA, 0xA4506CEB, 0xBEF9A3F7, 0xC67178F2]

/-- An 8-word hash state (a, b, c, d, e, f, g, h). -/
abbrev St8 := Nat × Nat × Nat × Nat × Nat × Nat × Nat × Nat

/-- Extend the reversed SHA-256 schedule by `fuel` words:
    W[t] = σ1(W[t-2]) + W[t-7] + σ0(W[t-15]) + W[t-16]. -/
def sha256ExtendRev : Nat → List Nat → List Nat
  | 0, acc => acc
  | fuel + 1, acc =>
    let wm2 := acc.getD 1 0
    let wm7 := acc.getD 6 0
    let wm15 := acc.getD 14 0
    let wm16 := acc.getD 15 0
    let s0 := rotr32 wm15 7 ^^^ rotr32 wm15 18 ^^^ (wm15 >>> 3)
    let s1 := rotr32 wm2 17 ^^^ rotr32 wm2 19 ^^^ (wm2 >>> 10)
    sha256ExtendRev fuel (w32 (s1 + wm7 + s0 + wm16) :: acc)

/-- One SHA-256 round for a (constant, schedule word) pair. -/
def sha256Round (st : St8) (kw : Nat × Nat) : St8 :=
  let (a, b, c, d, e, f, g, h) := st
  let (k, w) := kw
  let bigS1 := rotr32 e 6 ^^^ rotr32 e 11 ^^^ rotr32 e 25
  let ch := (e &&& f) ^^^ ((e ^^^ 0xFFFFFFFF) &&& g)
  let t1 := w32 (h + bigS1 + ch + k + w)
  let bigS0 := rotr32 a 2 ^^^ rotr32 a 13 ^^^ rotr32 a 22
  let maj := (a &&& b) ^^^ (a &&& c) ^^^ (b &&& c)
  let t2 := w32 (bigS0 + maj)
  (w32 (t1 + t2), a, b, c, w32 (d + t1), e, f, g)

/-- SHA-256 compression of one 64-byte block. -/
def sha256Block (st : St8) (block : List Nat) : St8 :=
  let ws := (chunks 4 block).map beWord
  let full := (sha256ExtendRev 48 ws.reverse).reverse
  let (a, b, c, d, e, f, g, h) := (ks256.zip full).foldl sha256Round st
  let (h0, h1, h2, h3, h4, h5, h6, h7) := st
  (w32 (h0 + a), w32 (h1 + b), w32 (h2 + c), w32 (h3 + d),
   w32 (h4 + e), w32 (h5 + f), w32 (h6 + g), w32 (h7 + h))

/-- SHA-256 initial hash value (FIPS 180-4 §5.3.3). -/
def sha256IV : St8 :=
  (0x6A09E667, 0xBB67AE85, 0x3C6EF372, 0xA54FF53A,
   0x510E527F, 0x9B05688C, 0x1F83D9AB, 0x5BE0CD19)

/-- Modelled from the spec: SHA-256 (FIPS 180-4), the hash behind the
    repository's `sha2::Sha256` dependency; bytes in, 32 digest bytes out. -/
def sha256 (msg : List Nat) : List Nat :=
  let (a, b, c, d, e, f, g, h) := (chunks 64 (mdPad 64 8 msg)).foldl sha256Block sha256IV
  toBeBytes 4 a ++ toBeBytes 4 b ++ toBeBytes 4 c ++ toBeBytes 4 d ++
  toBeBytes 4 e ++ toBeBytes 4 f ++ toBeBytes 4 g ++ toBeBytes 4 h

/-- SHA-512 round constants (FIPS 180-4 §4.2.3). -/
def ks512 : List Nat :=
  [0x428A2F98D728AE22, 0x7137449123EF65CD, 0xB5C0FBCFEC4D3B2F, 0xE9B5DBA58189DBBC,
   0x3956C25BF348B538, 0x59F111F1B605D019, 0x923F82A4AF194F9B, 0xAB1C5ED5DA6D8118,
   0xD807AA98A3030242, 0x12835B0145706FBE, 0x243185BE4EE4B28C, 0x550C7DC3D5FFB4E2,
   0x72BE5D74F27B896F, 0x80DEB1FE3B1696B1, 0x9BDC06A725C71235, 0xC19BF174CF692694,
   0xE49B69C19EF14AD2, 0xEFBE4786384F25E3, 0x0FC19DC68B8CD5B5, 0x240CA1CC77AC9C65,
   0x2DE92C6F592B0275, 0x4A7484AA6EA6E483, 0x5CB0A9DCBD41FBD4, 0x76F988DA831153B5,
   0x983E5152EE66DFAB, 0xA831C66D2DB43210, 0xB00327C898FB213F, 0xBF597FC7BEEF0EE4,
   0xC6E00BF33DA88FC2, 0xD5A79147930AA725, 0x06CA6351E003826F, 0x142929670A0E6E70,
   0x27B70A8546D22FFC, 0x2E1B21385C26C926, 0x4D2C6DFC5AC42AED, 0x53380D139D95B3DF,
   0x650A73548BAF63DE, 0x766A0ABB3C77B2A8, 0x81C2C92E47EDAEE6, 0x92722C851482353B,
   0xA2BFE8A14CF10364, 0xA81A664BBC423001, 0xC24B8B70D0F89791, 0xC76C51A30654BE30,
   0xD192E819D6EF5218, 0xD69906245565A910, 0xF40E35855771202A, 0x106AA07032BBD1B8,
   0x19A4C116B8D2D0C8, 0x1E376C085141AB53, 0x2748774CDF8EEB99, 0x34B0BCB5E19B48A8,
   0x391C0CB3C5C95A63, 0x4ED8AA4AE3418ACB, 0x5B9CCA4F7763E373, 0x682E6FF3D6B2B8A3,
   0x748F82EE5DEFB2FC, 0x78A5636F43172F60, 0x84C87814A1F0AB72, 0x8CC702081A6439EC,
   0x90BEFFFA23631E28, 0xA4506CEBDE82BDE9, 0xBEF9A3F7B2C67915, 0xC67178F2E372532B,
   0xCA273ECEEA26619C, 0xD186B8C721C0C207, 0xEADA7DD6CDE0EB1E, 0xF57D4F7FEE6ED178,
   0x06F067AA72176FBA, 0x0A637DC5A2C898A6, 0x113F9804BEF90DAE, 0x1B710B35131C471B,
   0x28DB77F523047D84, 0x32CAAB7B40C72493, 0x3C9EBE0A15C9BEBC, 0x431D67C49C100D4C,
   0x4CC5D4BECB3E42B6, 0x597F299CFC657E2A, 0x5FCB6FAB3AD6FAEC, 0x6C44198C4A475817]

/-- Extend the reversed SHA-512 schedule by `fuel` words. -/
def sha512ExtendRev : Nat → List Nat → List Nat
  | 0, acc => acc
  | fuel + 1, acc =>
    let wm2 := acc.getD 1 0
    let wm7 := acc.getD 6 0
    let wm15 := acc.getD 14 0
    let wm16 := acc.getD 15 0
    let s0 := rotr64 wm15 1 ^^^ rotr64 wm15 8 ^^^ (wm15 >>> 7)
    let s1 := rotr64 wm2 19 ^^^ rotr64 wm2 61 ^^^ (wm2 >>> 6)
    sha512ExtendRev fuel (w64 (s1 + wm7 + s0 + wm16) :: acc)

/-- One SHA-512 round for a (constant, schedule word) pair. -/
def sha512Round (st : St8) (kw : Nat × Nat) : St8 :=
  let (a, b, c, d, e, f, g, h) := st
  let (k, w) := kw
  let bigS1 := rotr64 e 14 ^^^ rotr64 e 18 ^^^ rotr64 e 41
  let ch := (e &&& f) ^^^ ((e ^^^ 0xFFFFFFFFFFFFFFFF) &&& g)
  let t1 := w64 (h + bigS1 + ch + k + w)
  let bigS0 := rotr64 a 28 ^^^ rotr64 a 34 ^^^ rotr64 a 39
  let maj := (a &&& b) ^^^ (a &&& c) ^^^ (b &&& c)
  let t2 := w64 (bigS0 + maj)
  (w64 (t1 + t2), a, b, c, w64 (d + t1), e, f, g)

/-- SHA-512 compression of one 128-byte block. -/
def sha512Block (st : St8) (block : List Nat) : St8 :=
  let ws := (chunks 8 block).map beWord
  let full := (sha512ExtendRev 64 ws.reverse).reverse
  let (a, b, c, d, e, f, g, h) := (ks512.zip full).foldl sha512Round st
  let (h0, h1, h2, h3, h4, h5, h6, h7) := st
  (w64 (h0 + a), w64 (h1 + b), w64 (h2 + c), w64 (h3 + d),
   w64 (h4 + e), w64 (h5 + f), w64 (h6 + g), w64 (h7 + h))

/-- SHA-512 initial hash value (FIPS 180-4 §5.3.5). -/
def sha512IV : St8 :=
  (0x6A09E667F3BCC908, 0xBB67AE8584CAA73B, 0x3C6EF372FE94F82B, 0xA54FF53A5F1D36F1,
   0x510E527FADE682D1, 0x9B05688C2B3E6C1F, 0x1F83D9ABFB41BD6B, 0x5BE0CD19137E2179)

/-- Modelled from the spec: SHA-512 (FIPS 180-4), the hash behind the
    repository's `sha2::Sha512` dependency; bytes in, 64 digest bytes out. -/
def sha512 (msg : List Nat) : List Nat :=
  let (a, b, c, d, e, f, g, h) := (chunks 128 (mdPad 128 16 msg)).foldl sha512Block sha512IV
  toBeBytes 8 a ++ toBeBytes 8 b ++ toBeBytes 8 c ++ toBeBytes 8 d ++
  toBeBytes 8 e ++ toBeBytes 8 f ++ toBeBytes 8 g ++ toBeBytes 8 h

/-- Modelled from the spec: HMAC (RFC 2104) over an arbitrary hash with the
    given block size, embedding the repository's `hmac::Hmac<_>` dependency.
    A key longer than the block is hashed first; any key length is accepted,
    which is why the source's `expect("HMAC can take key of any size")`
    assertion can never fire. -/
def hmacWith (hash : List Nat → List Nat) (blockSize : Nat) (key msg : List Nat) :
    List Nat :=
  let k0 := if blockSize < key.length then hash key else key
  let kp := k0 ++ List.replicate (blockSize - k0.length) 0
  hash ((kp.map (fun b => b ^^^ 0x5C)) ++ hash ((kp.map (fun b => b ^^^ 0x36)) ++ msg))

/-- Modelled from the spec: value of one character of the RFC 4648 Base32
    alphabet, upper-case `A`–`Z` (0–25) and `2`–`7` (26–31); any other
    character is outside the alphabet. The repository decodes secrets with the
    external `base32` crate (`Alphabet::RFC4648 { padding: false }`), whose
    source is not part of the repository; §4.1 of the spec fixes this
    upper-case alphabet and failure on anything outside it. -/
def b32val (c : Char) : Option Nat :=
  if 65 ≤ c.toNat ∧ c.toNat ≤ 90 then some (c.toNat - 65)
  else if 50 ≤ c.toNat ∧ c.toNat ≤ 55 then some (c.toNat - 50 + 26)
  else none

/-- Alphabet values of a character list; `none` as soon as one character is
    outside the alphabet (the crate's decode loop returns `None` likewise). -/
def b32vals : List Char → Option (List Nat)
  | [] => some []
  | c :: cs =>
    match b32val c, b32vals cs with
    | some v, some vs => some (v :: vs)
    | _, _ => none

/-- Modelled from the spec: Base32 decode (RFC 4648, no padding). The 5-bit
    values are concatenated big-endian and every complete byte of the
    resulting bit string is emitted (`5·L / 8` bytes for `L` characters);
    any character outside the alphabet makes the whole decode fail. -/
def base32decode (s : String) : Option (List Nat) :=
  match b32vals s.toList with
  | none => none
  | some vals =>
    let l := vals.length
    let acc := vals.foldl (fun a v => a * 32 + v) 0
    some (toBeBytes (5 * l / 8) (acc >>> (5 * l % 8)))

/-- Character of a 5-bit value in the RFC 4648 Base32 alphabet. -/
def b32char (v : Nat) : Char :=
  if v < 26 then Char.ofNat (65 + v) else Char.ofNat (50 + v - 26)

/-- Modelled from the spec: Base32 encode (RFC 4648, no padding), the
    `base32::encode` the repository's tests use to build the RFC 6238
    secrets from their ASCII form. -/
def base32encode (bs : List Nat) : String :=
  let l := bs.length
  let n := (8 * l + 4) / 5
  let acc := (bs.foldl (fun a b => a * 256 + b % 256) 0) <<< (5 * n - 8 * l)
  String.mk ((toBeDigits 32 n acc).map b32char)

/-- `ascii_to_base32` of the repository's tests (`src/totp.rs` line 154). -/
def ascii_to_base32 (s : String) : String := base32encode (asciiBytes s)

/-- The `Account` record of `src/totp.rs` lines 10–25. `digits` and `period`
    are `u32` and `epoch` is `u64` in the source; they are embedded as `Nat`
    with wrapping made explicit where the source can overflow. -/
structure Account where
  name : String
  secret : String
  issuer : String
  algorithm : String
  digits : Nat
  period : Nat
  epoch : Nat
deriving DecidableEq

/-- The `AppError` message wrapper of `src/lib.rs`. -/
structure AppError where
  message : String
deriving DecidableEq

/-- `AppError::new` of `src/lib.rs`. -/
def AppError.new (m : String) : AppError := ⟨m⟩

/-- Outcome of one `generate_totp` call: `Ok(code)`, a typed `Err(AppError)`,
    or a Rust panic (division by zero, out-of-bounds index, or `u32` overflow
    under debug assertions). -/
inductive TotpResult where
  | ok (code : Nat)
  | err (e : AppError)
  | panic (msg : String)
deriving DecidableEq

/-- Dynamic truncation and modulus of `src/totp.rs` lines 119–128: the offset
    is the low nibble of the digest's last byte, four digest bytes starting
    there form a 31-bit integer, and the code is that integer mod
    `10u32.pow(digits)`. Indexing an out-of-range offset and an overflowing
    `10u32.pow` are panics. -/
def dynamicTruncation (result : List Nat) (digits : Nat) : TotpResult :=
  if result.length = 0 then .panic "index out of bounds"
  else
    let offset := result.getLastD 0 &&& 0xF
    if offset + 3 < result.length then
      let binary := ((result.getD offset 0 &&& 0x7F) <<< 24)
                ||| ((result.getD (offset + 1) 0 &&& 0xFF) <<< 16)
                ||| ((result.getD (offset + 2) 0 &&& 0xFF) <<< 8)
                ||| (result.getD (offset + 3) 0 &&& 0xFF)
      if 10 ^ digits < 4294967296 then .ok (binary % 10 ^ digits)
      else .panic "attempt to multiply with overflow"
    else .panic "index out of bounds"

/-- `generate_totp` of `src/totp.rs` lines 82–129. The secret is Base32
    decoded (failure → the "Bytes could not be decoded" error), the counter is
    `(duration.as_secs().saturating_sub(epoch)) / period` (`u64` division;
    divisor 0 panics), encoded as 8 big-endian bytes, and the algorithm string
    selects HMAC-SHA1 / HMAC-SHA256 / HMAC-SHA512 (anything else → the
    "Unsupported algorithm" error) before dynamic truncation. -/
def generate_totp (account : Account) (durationSecs : Nat) : TotpResult :=
  match base32decode account.secret with
  | none => .err (AppError.new "Bytes could not be decoded")
  | some secret_bytes =>
    if account.period = 0 then .panic "attempt to divide by zero"
    else
      let counter := (durationSecs - account.epoch) / account.period
      let counter_bytes := toBeBytes 8 counter
      if account.algorithm = "SHA1" then
        dynamicTruncation (hmacWith sha1 64 secret_bytes counter_bytes) account.digits
      else if account.algorithm = "SHA256" then
        dynamicTruncation (hmacWith sha256 64 secret_bytes counter_bytes) account.digits
      else if account.algorithm = "SHA512" then
        dynamicTruncation (hmacWith sha512 128 secret_bytes counter_bytes) account.digits
      else .err (AppError.new "Unsupported algorithm")

/-- The pipeline of `generate_totp` downstream of the counter: decode the
    secret, dispatch on the algorithm, HMAC the given message bytes, truncate.
    Used to state that `generate_totp` feeds exactly the 8-byte big-endian
    counter into the HMAC. -/
def totpFromMessage (account : Account) (message : List Nat) : TotpResult :=
  match base32decode account.secret with
  | none => .err (AppError.new "Bytes could not be decoded")
  | some secret_bytes =>
    if account.algorithm = "SHA1" then
      dynamicTruncation (hmacWith sha1 64 secret_bytes message) account.digits
    else if account.algorithm = "SHA256" then
      dynamicTruncation (hmacWith sha256 64 secret_bytes message) account.digits
    else if account.algorithm = "SHA512" then
      dynamicTruncation (hmacWith sha512 128 secret_bytes message) account.digits
    else .err (AppError.new "Unsupported algorithm")

/-- `Account::generate_uri` of `src/totp.rs` lines 60–79: the label is
    `issuer:name` and the five query parameters are joined with `&` in fixed
    order, with no percent-encoding anywhere. -/
def Account.generate_uri (a : Account) : String :=
  let label := a.issuer ++ ":" ++ a.name
  let params := [("secret", a.secret), ("issuer", a.issuer), ("algorithm", a.algorithm),
                 ("digits", toString a.digits), ("period", toString a.period)]
  let query := String.intercalate "&" (params.map fun kv => kv.1 ++ "=" ++ kv.2)
  "otpauth://totp/" ++ label ++ "?" ++ query

/-- Value of one hexadecimal digit character. -/
def hexVal (c : Char) : Option Nat :=
  if 48 ≤ c.toNat ∧ c.toNat ≤ 57 then some (c.toNat - 48)
  else if 65 ≤ c.toNat ∧ c.toNat ≤ 70 then some (c.toNat - 55)
  else if 97 ≤ c.toNat ∧ c.toNat ≤ 102 then some (c.toNat - 87)
  else none

/-- Percent-decoding as done by the `urlencoding` crate: every `%XY` with two
    hex digits becomes the byte `0xXY`, everything else is kept verbatim
    (modelled at character level; the inputs in the repository are ASCII). -/
def percentDecodeChars : List Char → List Char
  | [] => []
  | '%' :: a :: b :: rest =>
    match hexVal a, hexVal b with
    | some ha, some hb => Char.ofNat (16 * ha + hb) :: percentDecodeChars rest
    | _, _ => '%' :: percentDecodeChars (a :: b :: rest)
  | c :: rest => c :: percentDecodeChars rest

/-- `extract_account_from_otpauth` of `src/dashboard.rs` lines 822–838: require
    the `otpauth://totp/` scheme, take the path segment up to `?` (or the whole
    remainder), and percent-decode it. The whole segment is returned; there is
    no splitting on `:`. -/
def extract_account_from_otpauth (uri : String) : Option String :=
  let cs := uri.toList
  if ("otpauth://totp/".toList).isPrefixOf cs then
    let path := cs.drop 15
    let account_part :=
      match path.findIdx? (fun c => c = '?') with
      | some q => path.take q
      | none => path
    some (String.mk (percentDecodeChars account_part))
  else none

/-- Split a character list on a separator character (like Rust's `split`). -/
def splitOnChar (c : Char) (l : List Char) : List (List Char) :=
  l.foldr
    (fun x acc =>
      match acc with
      | [] => if x = c then [[], []] else [[x]]
      | g :: gs => if x = c then [] :: g :: gs else (x :: g) :: gs)
    [[]]

/-- `extract_secret_from_otpauth` of `src/dashboard.rs` lines 840–846: parse
    the URI's query string into key/value pairs (separated by `&`, split on
    the first `=`, percent-decoded) and look up `secret`. The Rust code uses
    `Url::parse` and a `HashMap` (duplicate keys keep the last value, hence
    the reversed lookup); the query-pair model covers the `otpauth` URIs the
    dashboard feeds it. -/
def extract_secret_from_otpauth (uri : String) : Option String :=
  let cs := uri.toList
  if ("otpauth://".toList).isPrefixOf cs then
    match cs.findIdx? (fun c => c = '?') with
    | none => none
    | some q =>
      let query := cs.drop (q + 1)
      let pairs := (splitOnChar '&' query).map fun p =>
        match p.findIdx? (fun c => c = '=') with
        | some i => (String.mk (percentDecodeChars (p.take i)),
                     String.mk (percentDecodeChars (p.drop (i + 1))))
        | none => (String.mk (percentDecodeChars p), "")
      List.lookup "secret" pairs.reverse
  else none

/-- The RFC 6238 Appendix B test account: secret = Base32 of the ASCII string,
    8 digits, 30-second period, epoch 0 (as built by the repository's tests). -/
def rfcAccount (alg : String) (secret : String) : Account :=
  { name := "test", secret := ascii_to_base32 secret, issuer := "hotpot",
    algorithm := alg, digits := 8, period := 30, epoch := 0 }

/-- The 20-byte ASCII test secret of RFC 6238 Appendix B (SHA-1). -/
def sha1Secret : String := "12345678901234567890"

/-- The 32-byte ASCII test secret of RFC 6238 Appendix B (SHA-256). -/
def sha256Secret : String := "12345678901234567890123456789012"

/-- The 64-byte ASCII test secret of RFC 6238 Appendix B (SHA-512). -/
def sha512Secret : String :=
  "1234567890123456789012345678901234567890123456789012345678901234"

/-- The account of the spec's URI round-trip property: name `test`,
    secret `JBSWY3DPEHPK3PXP`, issuer `hotpot`, all other fields default
    (`Account::new` of `src/totp.rs`). -/
def c3Account : Account :=
  { name := "test", secret := "JBSWY3DPEHPK3PXP", issuer := "hotpot",
    algorithm := "SHA1", digits := 6, period := 30, epoch := 0 }

/-- A concrete valid account (the RFC 6238 SHA-1 secret, already Base32). -/
def witnessAccount : Account :=
  { name := "w", secret := "GEZDGNBVGY3TQOJQGEZDGNBVGY3TQOJQ", issuer := "hotpot",
    algorithm := "SHA1", digits := 8, period := 30, epoch := 0 }

/-- A concrete account with a decodable secret but algorithm `SHA999`. -/
def sha999Account : Account :=
  { name := "x", secret := "AA", issuer := "hotpot",
    algorithm := "SHA999", digits := 6, period := 30, epoch := 0 }

/-- A concrete account whose secret is not valid Base32 (it has a space). -/
def invalidSecretAccount : Account :=
  { name := "bad", secret := "invalid base32", issuer := "hotpot",
    algorithm := "SHA1", digits := 6, period := 30, epoch := 0 }

/-- A concrete account whose secret (`"8"`) is outside the Base32 alphabet
    and whose algorithm and period are also bad, to show the secret error
    wins. -/
def invalidSecretAccount2 : Account :=
  { name := "bad8", secret := "8", issuer := "hotpot",
    algorithm := "SHA999", digits := 6, period := 0, epoch := 0 }

/-- `toBeBytes` always produces exactly `k` bytes. -/
theorem toBeBytes_length : ∀ (k x : Nat), (toBeBytes k x).length = k
  | 0, _ => rfl
  | k + 1, x => by simp [toBeBytes, toBeBytes_length k]

/-- SHA-1 digests are 20 bytes for every message. -/
theorem sha1_length (m : List Nat) : (sha1 m).length = 20 := by
  show (toBeBytes 4 _ ++ toBeBytes 4 _ ++ toBeBytes 4 _ ++ toBeBytes 4 _ ++
        toBeBytes 4 _).length = 20
  simp [List.length_append, toBeBytes_length]

/-- SHA-256 digests are 32 bytes for every message. -/
theorem sha256_length (m : List Nat) : (sha256 m).length = 32 := by
  show (toBeBytes 4 _ ++ toBeBytes 4 _ ++ toBeBytes 4 _ ++ toBeBytes 4 _ ++
        toBeBytes 4 _ ++ toBeBytes 4 _ ++ toBeBytes 4 _ ++ toBeBytes 4 _).length = 32
  simp [List.length_append, toBeBytes_length]

/-- SHA-512 digests are 64 bytes for every message. -/
theorem sha512_length (m : List Nat) : (sha512 m).length = 64 := by
  show (toBeBytes 8 _ ++ toBeBytes 8 _ ++ toBeBytes 8 _ ++ toBeBytes 8 _ ++
        toBeBytes 8 _ ++ toBeBytes 8 _ ++ toBeBytes 8 _ ++ toBeBytes 8 _).length = 64
  simp [List.length_append, toBeBytes_length]

/-- HMAC-SHA1 digests are 20 bytes. -/
theorem hmac_sha1_length (k m : List Nat) : (hmacWith sha1 64 k m).length = 20 :=
  sha1_length _

/-- HMAC-SHA256 digests are 32 bytes. -/
theorem hmac_sha256_length (k m : List Nat) : (hmacWith sha256 64 k m).length = 32 :=
  sha256_length _

/-- HMAC-SHA512 digests are 64 bytes. -/
theorem hmac_sha512_length (k m : List Nat) : (hmacWith sha512 128 k m).length = 64 :=
  sha512_length _

/-- Dynamic truncation of a digest of at least 20 bytes with a modulus that
    fits in `u32` always yields `Ok` with a code below the modulus. -/
theorem dynamicTruncation_ok (res : List Nat) (digits : Nat) (h20 : 20 ≤ res.length)
    (hmod : 10 ^ digits < 4294967296) :
    ∃ c, dynamicTruncation res digits = TotpResult.ok c ∧ c < 10 ^ digits := by
  have hne : ¬ res.length = 0 := by omega
  have hoff : (res.getLastD 0 &&& 0xF) + 3 < res.length := by
    have := Nat.and_le_right (n := res.getLastD 0) (m := 0xF)
    omega
  refine ⟨((res.getD (res.getLastD 0 &&& 0xF) 0 &&& 0x7F) <<< 24
          ||| (res.getD ((res.getLastD 0 &&& 0xF) + 1) 0 &&& 0xFF) <<< 16
          ||| (res.getD ((res.getLastD 0 &&& 0xF) + 2) 0 &&& 0xFF) <<< 8
          ||| (res.getD ((res.getLastD 0 &&& 0xF) + 3) 0 &&& 0xFF)) % 10 ^ digits,
        ?_, Nat.mod_lt _ (Nat.pos_pow_of_pos _ (by norm_num))⟩
  unfold dynamicTruncation
  rw [if_neg hne]
  show (if (res.getLastD 0 &&& 0xF) + 3 < res.length then _ else _) = _
  rw [if_pos hoff]
  show (if 10 ^ digits < 4294967296 then _ else _) = _
  rw [if_pos hmod]

/-- `Ok` results of dynamic truncation are always below the modulus. -/
theorem dynamicTruncation_lt (res : List Nat) (digits c : Nat)
    (h : dynamicTruncation res digits = TotpResult.ok c) : c < 10 ^ digits := by
  unfold dynamicTruncation at h
  split at h
  · exact absurd h (by simp)
  · rcases Nat.lt_or_ge ((res.getLastD 0 &&& 0xF) + 3) res.length with hoff | hoff
    · rw [if_pos hoff] at h
      split at h
      · rw [TotpResult.ok.injEq] at h
        exact h ▸ Nat.mod_lt _ (Nat.pos_pow_of_pos _ (by norm_num))
      · exact absurd h (by simp)
    · rw [if_neg (Nat.not_lt.mpr hoff)] at h
      exact absurd h (by simp)

/-- A character outside the Base32 alphabet poisons `b32vals`. -/
theorem b32vals_none {c : Char} (hv : b32val c = none) :
    ∀ l : List Char, c ∈ l → b32vals l = none := by
  intro l hmem
  induction l with
  | nil => cases hmem
  | cons x xs ih =>
    rcases List.mem_cons.mp hmem with h | h
    · subst h
      simp only [b32vals, hv]
    · simp only [b32vals, ih h]
      cases b32val x <;> rfl

/-- A secret containing a character outside the Base32 alphabet fails to
    decode. -/
theorem base32decode_none {s : String} {c : Char} (hc : c ∈ s.toList)
    (hv : b32val c = none) : base32decode s = none := by
  unfold base32decode
  rw [b32vals_none hv _ hc]

/-- Embedding validation: SHA-1 of `"abc"` matches FIPS 180-4's test value. -/
theorem sha1_abc : sha1 (asciiBytes "abc") =
    [0xa9, 0x99, 0x3e, 0x36, 0x47, 0x06, 0x81, 0x6a, 0xba, 0x3e,
     0x25, 0x71, 0x78, 0x50, 0xc2, 0x6c, 0x9c, 0xd0, 0xd8, 0x9d] := by decide

/-- Embedding validation: SHA-256 of `"abc"` matches FIPS 180-4's test value. -/
theorem sha256_abc : sha256 (asciiBytes "abc") =
    [0xba, 0x78, 0x16, 0xbf, 0x8f, 0x01, 0xcf, 0xea, 0x41, 0x41, 0x40, 0xde,
     0x5d, 0xae, 0x22, 0x23, 0xb0, 0x03, 0x61, 0xa3, 0x96, 0x17, 0x7a, 0x9c,
     0xb4, 0x10, 0xff, 0x61, 0xf2, 0x00, 0x15, 0xad] := by decide

/-- Embedding validation: SHA-512 of `"abc"` matches FIPS 180-4's test value. -/
theorem sha512_abc : sha512 (asciiBytes "abc") =
    [0xdd, 0xaf, 0x35, 0xa1, 0x93, 0x61, 0x7a, 0xba, 0xcc, 0x41, 0x73, 0x49,
     0xae, 0x20, 0x41, 0x31, 0x12, 0xe6, 0xfa, 0x4e, 0x89, 0xa9, 0x7e, 0xa2,
     0x0a, 0x9e, 0xee, 0xe6, 0x4b, 0x55, 0xd3, 0x9a, 0x21, 0x92, 0x99, 0x2a,
     0x27, 0x4f, 0xc1, 0xa8, 0x36, 0xba, 0x3c, 0x23, 0xa3, 0xfe, 0xeb, 0xbd,
     0x45, 0x4d, 0x44, 0x23, 0x64, 0x3c, 0xe8, 0x0e, 0x2a, 0x9a, 0xc9, 0x4f,
     0xa5, 0x4c, 0xa4, 0x9f] := by decide

/-- Embedding validation: HMAC-SHA1 matches RFC 2202 test case 2. -/
theorem hmac_sha1_rfc2202 :
    hmacWith sha1 64 (asciiBytes "Jefe") (asciiBytes "what do ya want for nothing?") =
    [0xef, 0xfc, 0xdf, 0x6a, 0xe5, 0xeb, 0x2f, 0xa2, 0xd2, 0x74,
     0x16, 0xd5, 0xf1, 0x84, 0xdf, 0x9c, 0x25, 0x9a, 0x7c, 0x79] := by decide

/-- Embedding validation: Base32 encoding of the RFC 6238 SHA-1 secret. -/
theorem base32_encode_rfc_secret :
    ascii_to_base32 "12345678901234567890" = "GEZDGNBVGY3TQOJQGEZDGNBVGY3TQOJQ" := by
  decide

/-- Embedding validation: Base32 decoding of the spec's example secret. -/
theorem base32_decode_example :
    base32decode "JBSWY3DPEHPK3PXP"
      = some [0x48, 0x65, 0x6c, 0x6c, 0x6f, 0x21, 0xde, 0xad, 0xbe, 0xef] := by decide

/-- C1: for each hash algorithm in {SHA1, SHA256, SHA512}, with the RFC 6238
    Appendix B secret for that hash (the ASCII digits repeated to 20/32/64
    bytes, Base32-encoded), digits = 8, period = 30, epoch = 0,
    `generate_totp` returns `Ok(expected_code)` for every `(time, code)` pair
    of the Appendix B table — in particular SHA1 at 59 ↦ 94287082 and SHA256
    at 1111111109 ↦ 68084774. -/
theorem totp_rfc6238_appendix_b :
    generate_totp (rfcAccount "SHA1" sha1Secret) 59 = TotpResult.ok 94287082
  ∧ generate_totp (rfcAccount "SHA1" sha1Secret) 1111111109 = TotpResult.ok 7081804
  ∧ generate_totp (rfcAccount "SHA1" sha1Secret) 1111111111 = TotpResult.ok 14050471
  ∧ generate_totp (rfcAccount "SHA1" sha1Secret) 1234567890 = TotpResult.ok 89005924
  ∧ generate_totp (rfcAccount "SHA1" sha1Secret) 2000000000 = TotpResult.ok 69279037
  ∧ generate_totp (rfcAccount "SHA1" sha1Secret) 20000000000 = TotpResult.ok 65353130
  ∧ generate_totp (rfcAccount "SHA256" sha256Secret) 59 = TotpResult.ok 46119246
  ∧ generate_totp (rfcAccount "SHA256" sha256Secret) 1111111109 = TotpResult.ok 68084774
  ∧ generate_totp (rfcAccount "SHA256" sha256Secret) 1111111111 = TotpResult.ok 67062674
  ∧ generate_totp (rfcAccount "SHA256" sha256Secret) 1234567890 = TotpResult.ok 91819424
  ∧ generate_totp (rfcAccount "SHA256" sha256Secret) 2000000000 = TotpResult.ok 90698825
  ∧ generate_totp (rfcAccount "SHA256" sha256Secret) 20000000000 = TotpResult.ok 77737706
  ∧ generate_totp (rfcAccount "SHA512" sha512Secret) 59 = TotpResult.ok 90693936
  ∧ generate_totp (rfcAccount "SHA512" sha512Secret) 1111111109 = TotpResult.ok 25091201
  ∧ generate_totp (rfcAccount "SHA512" sha512Secret) 1111111111 = TotpResult.ok 99943326
  ∧ generate_totp (rfcAccount "SHA512" sha512Secret) 1234567890 = TotpResult.ok 93441116
  ∧ generate_totp (rfcAccount "SHA512" sha512Secret) 2000000000 = TotpResult.ok 38618901
  ∧ generate_totp (rfcAccount "SHA512" sha512Secret) 20000000000 = TotpResult.ok 47863826 := by
  decide

/-- C2: for every account with period > 0 and every time `t`, `generate_totp`
    feeds the HMAC exactly the counter `(t ∸ epoch) / period` encoded as 8
    big-endian bytes (`totpFromMessage` is the pipeline downstream of the
    counter), and whenever `t ≤ epoch` the counter is 0, so the result equals
    the result at time `epoch`. -/
theorem totp_counter_message (account : Account) (t : Nat) (hp : 0 < account.period) :
    generate_totp account t
      = totpFromMessage account (toBeBytes 8 ((t - account.epoch) / account.period))
    ∧ (toBeBytes 8 ((t - account.epoch) / account.period)).length = 8
    ∧ (t ≤ account.epoch → generate_totp account t = generate_totp account account.epoch) := by
  have hp' : ¬ account.period = 0 := by omega
  refine ⟨?_, toBeBytes_length 8 _, ?_⟩
  · cases hb : base32decode account.secret with
    | none => simp [generate_totp, totpFromMessage, hb]
    | some bs => simp [generate_totp, totpFromMessage, hb, hp']
  · intro hle
    have h1 : t - account.epoch = 0 := Nat.sub_eq_zero_of_le hle
    have h2 : account.epoch - account.epoch = 0 := Nat.sub_self _
    simp [generate_totp, h1, h2]

/-- C2 witness: the counter/message decomposition at a concrete account and
    time 59. -/
theorem totp_counter_message_witness :
    generate_totp witnessAccount 59
      = totpFromMessage witnessAccount
          (toBeBytes 8 ((59 - witnessAccount.epoch) / witnessAccount.period))
    ∧ (toBeBytes 8 ((59 - witnessAccount.epoch) / witnessAccount.period)).length = 8
    ∧ (59 ≤ witnessAccount.epoch →
        generate_totp witnessAccount 59 = generate_totp witnessAccount witnessAccount.epoch) :=
  totp_counter_message witnessAccount 59 (by decide)

/-- C3 counterexample: decoding the URI produced by encoding the account
    (name `test`, secret `JBSWY3DPEHPK3PXP`, issuer `hotpot`) does NOT yield
    the name `test`: `extract_account_from_otpauth` performs no split on `:`
    and returns the whole percent-decoded label `hotpot:test`. -/
theorem uri_roundtrip_claimed_name_fails :
    extract_account_from_otpauth (Account.generate_uri c3Account) ≠ some "test"
  ∧ extract_account_from_otpauth (Account.generate_uri c3Account) = some "hotpot:test" :=
  ⟨by decide, by decide⟩

/-- C3 (amended): decoding the URI produced by encoding the account recovers
    the secret exactly, and the name extractor returns the full
    issuer-prefixed label `hotpot:test` (no issuer is separately recovered). -/
theorem uri_roundtrip_label_and_secret :
    extract_account_from_otpauth (Account.generate_uri c3Account) = some "hotpot:test"
  ∧ extract_secret_from_otpauth (Account.generate_uri c3Account)
      = some "JBSWY3DPEHPK3PXP" :=
  ⟨by decide, by decide⟩

/-- C4: whenever `generate_totp` succeeds with `Ok(code)`, the code is below
    `10 ^ digits` (and as a `Nat` it is trivially ≥ 0); no hypothesis on
    `digits` is needed. -/
theorem totp_code_range (account : Account) (t c : Nat)
    (h : generate_totp account t = TotpResult.ok c) : c < 10 ^ account.digits := by
  unfold generate_totp at h
  split at h
  · exact absurd h (by simp)
  · split at h
    · exact absurd h (by simp)
    · split at h
      · exact dynamicTruncation_lt _ _ _ h
      · split at h
        · exact dynamicTruncation_lt _ _ _ h
        · split at h
          · exact dynamicTruncation_lt _ _ _ h
          · exact absurd h (by simp)

/-- C4 witness: the range invariant at a concrete account whose code is
    94287082 with 8 digits. -/
theorem totp_code_range_witness :
    generate_totp witnessAccount 59 = TotpResult.ok 94287082
    ∧ 94287082 < 10 ^ witnessAccount.digits :=
  ⟨by decide, totp_code_range witnessAccount 59 94287082 (by decide)⟩

/-- C5: with a decodable secret and positive period, `generate_totp`
    dispatches on the algorithm string — `"SHA1"`, `"SHA256"`, `"SHA512"`
    compute the code by dynamic truncation of HMAC-SHA1 / HMAC-SHA256 /
    HMAC-SHA512 of the counter bytes, and every other string yields the
    `Unsupported algorithm` error. -/
theorem totp_algorithm_dispatch (account : Account) (t : Nat) (bs : List Nat)
    (hdec : base32decode account.secret = some bs) (hp : 0 < account.period) :
    (account.algorithm = "SHA1" →
       generate_totp account t
         = dynamicTruncation
             (hmacWith sha1 64 bs (toBeBytes 8 ((t - account.epoch) / account.period)))
             account.digits)
  ∧ (account.algorithm = "SHA256" →
       generate_totp account t
         = dynamicTruncation
             (hmacWith sha256 64 bs (toBeBytes 8 ((t - account.epoch) / account.period)))
             account.digits)
  ∧ (account.algorithm = "SHA512" →
       generate_totp account t
         = dynamicTruncation
             (hmacWith sha512 128 bs (toBeBytes 8 ((t - account.epoch) / account.period)))
             account.digits)
  ∧ (account.algorithm ≠ "SHA1" → account.algorithm ≠ "SHA256" →
     account.algorithm ≠ "SHA512" →
       generate_totp account t = TotpResult.err (AppError.new "Unsupported algorithm")) := by
  have hp' : ¬ account.period = 0 := by omega
  refine ⟨fun h1 => ?_, fun h1 => ?_, fun h1 => ?_, fun h1 h2 h3 => ?_⟩ <;>
    simp [generate_totp, hdec, hp', h1]
  · simp [h2, h3]

/-- C5 witness: the `SHA999` algorithm on a decodable secret yields the
    `Unsupported algorithm` error. -/
theorem totp_algorithm_dispatch_witness :
    base32decode sha999Account.secret = some [0]
    ∧ generate_totp sha999Account 59
        = TotpResult.err (AppError.new "Unsupported algorithm") :=
  ⟨by decide,
   (totp_algorithm_dispatch sha999Account 59 [0] (by decide) (by decide)).2.2.2
     (by decide) (by decide) (by decide)⟩

/-- C6: an account whose secret contains a character outside the Base32
    alphabet (`b32val c = none`) makes `generate_totp` return the
    `Bytes could not be decoded` error at every time value — a typed `Err`,
    never a panic. -/
theorem totp_invalid_secret_rejected (account : Account) (t : Nat) (c : Char)
    (hc : c ∈ account.secret.toList) (hv : b32val c = none) :
    generate_totp account t = TotpResult.err (AppError.new "Bytes could not be decoded") := by
  simp [generate_totp, base32decode_none hc hv]

/-- C6 witness: the secret `"invalid base32"` (its space is outside the
    alphabet) is rejected at time 59. -/
theorem totp_invalid_secret_rejected_witness :
    generate_totp invalidSecretAccount 59
      = TotpResult.err (AppError.new "Bytes could not be decoded") :=
  totp_invalid_secret_rejected invalidSecretAccount 59 ' ' (by decide) (by decide)

/-- C7: with period > 0 and digits ≤ 9, `generate_totp` never panics: the
    division has a nonzero divisor, HMAC accepts any key, the truncation
    offset (≤ 15) plus 3 stays below every supported digest length (≥ 20),
    and `10 ^ digits` fits in `u32`. -/
theorem totp_no_panic (account : Account) (t : Nat)
    (hp : 0 < account.period) (hd : account.digits ≤ 9) (msg : String) :
    generate_totp account t ≠ TotpResult.panic msg := by
  have hp' : ¬ account.period = 0 := by omega
  have hmod : 10 ^ account.digits < 4294967296 := by
    calc 10 ^ account.digits ≤ 10 ^ 9 := Nat.pow_le_pow_right (by norm_num) hd
    _ < 4294967296 := by norm_num
  cases hb : base32decode account.secret with
  | none => simp [generate_totp, hb]
  | some bs =>
    by_cases h1 : account.algorithm = "SHA1"
    · obtain ⟨c, hc, -⟩ :=
        dynamicTruncation_ok (hmacWith sha1 64 bs
          (toBeBytes 8 ((t - account.epoch) / account.period))) account.digits
          (by rw [hmac_sha1_length]) hmod
      simp [generate_totp, hb, hp', h1, hc]
    · by_cases h2 : account.algorithm = "SHA256"
      · obtain ⟨c, hc, -⟩ :=
          dynamicTruncation_ok (hmacWith sha256 64 bs
            (toBeBytes 8 ((t - account.epoch) / account.period))) account.digits
            (by rw [hmac_sha256_length]; omega) hmod
        simp [generate_totp, hb, hp', h1, h2, hc]
      · by_cases h3 : account.algorithm = "SHA512"
        · obtain ⟨c, hc, -⟩ :=
            dynamicTruncation_ok (hmacWith sha512 128 bs
              (toBeBytes 8 ((t - account.epoch) / account.period))) account.digits
              (by rw [hmac_sha512_length]; omega) hmod
          simp [generate_totp, hb, hp', h1, h2, h3, hc]
        · simp [generate_totp, hb, hp', h1, h2, h3]

/-- C7 witness: a concrete call cannot be the division-by-zero panic. -/
theorem totp_no_panic_witness :
    generate_totp sha999Account 59 ≠ TotpResult.panic "attempt to divide by zero" :=
  totp_no_panic sha999Account 59 (by decide) (by decide) _

/-- C8: shifting the epoch is a pure time-origin shift — an account with
    epoch `E` evaluated at time `E + d` gives exactly the result of the same
    account with epoch 0 at time `d`, for every account and offset. -/
theorem totp_epoch_shift (account : Account) (d : Nat) :
    generate_totp account (account.epoch + d)
      = generate_totp { account with epoch := 0 } d := by
  simp [generate_totp, Nat.add_sub_cancel_left]

/-- C9: two times in the same period window — equal floored counters
    `(t ∸ epoch) / period` — give identical results; the code can only change
    at a period boundary. -/
theorem totp_period_window (account : Account) (t1 t2 : Nat)
    (hp : 0 < account.period)
    (hq : (t1 - account.epoch) / account.period
        = (t2 - account.epoch) / account.period) :
    generate_totp account t1 = generate_totp account t2 := by
  simp [generate_totp, hq]

/-- C9 witness: times 59 and 45 share counter 1 with period 30 and give the
    same result. -/
theorem totp_period_window_witness :
    generate_totp witnessAccount 59 = generate_totp witnessAccount 45 :=
  totp_period_window witnessAccount 59 45 (by decide) (by decide)

/-- C10: the secret is decoded before the algorithm string is inspected:
    every account with an undecodable secret gets the `Bytes could not be
    decoded` error at every time, whatever its algorithm (or even period),
    and in particular an account combining the bad secret `"invalid base32"`
    with the unsupported algorithm `"SHA999"` reports the secret error. -/
theorem totp_secret_before_algorithm :
    (∀ (account : Account) (t : Nat), base32decode account.secret = none →
        generate_totp account t
          = TotpResult.err (AppError.new "Bytes could not be decoded"))
  ∧ generate_totp
      { name := "bad", secret := "invalid base32", issuer := "hotpot",
        algorithm := "SHA999", digits := 6, period := 30, epoch := 0 } 59
      = TotpResult.err (AppError.new "Bytes could not be decoded") := by
  constructor
  · intro account t hdec
    simp [generate_totp, hdec]
  · decide

/-- C10 witness: an account whose secret `"8"` is outside the alphabet and
    whose algorithm (`SHA999`) and period (0) are also invalid still reports
    the secret error. -/
theorem totp_secret_before_algorithm_witness :
    generate_totp invalidSecretAccount2 0
      = TotpResult.err (AppError.new "Bytes could not be decoded") :=
  totp_secret_before_algorithm.1 invalidSecretAccount2 0 (by decide)
